import Mathlib

/-!
Verification of the Windows automation client of the Drug-box-OCR repository
(`src/windows-client/`).  The Python functions are shallowly embedded as pure
Lean functions producing an explicit event trace: every `time.sleep`,
countdown print, `pyautogui.typewrite` / `pyautogui.press`, HTTP request and
user-facing phase banner becomes one `Ev` event.  The external world (the
Android HTTP provider and the physical fail-safe gesture) is an `Env` record
the functions read.
-/

namespace DrugBoxOCR

/-- One observable event of a run.  Delays are carried in milliseconds so the
source floats (1.0, 0.5, 2.0, 3.0 seconds) embed as naturals.  `httpGet` /
`httpPost` carry the request path and the `timeout=` value in seconds, as at
each `requests.get` / `requests.post` call site.  `countdownTick n` models the
`print(f"   {i}...")` of the pre-automation countdown, and `report` models the
other user-facing prints that mark a phase or condition. -/
inductive Ev : Type
  | sleep (ms : Nat)
  | countdownTick (n : Nat)
  | typeText (s : String)
  | pressKey (k : String)
  | httpGet (path : String) (timeoutS : Nat)
  | httpPost (path : String) (timeoutS : Nat)
  | openBrowser (url : String)
  | report (msg : String)
deriving DecidableEq, Repr

/-- Session object of the provider's `/status` response (`data['session']`). -/
structure SessionInfo : Type where
  sessionId : String
  patientInfo : String
  drugCount : Nat
deriving DecidableEq, Repr

/-- The external world a run interacts with: what each HTTP endpoint would
answer, and the fail-safe gesture.  `none` in a status field models a raised
`requests` exception (connection error); `some c` a response with HTTP status
`c`.  `failAt = some t` means the fail-safe gesture (mouse in the guarded
corner) is active from the moment `t` pyautogui calls have completed onward:
every pyautogui call from the (t+1)-st on raises `FailSafeException`.
`failAt = none` means the gesture never occurs.  `time.sleep` never consults
the gesture, matching the source where only pyautogui functions check
`FAILSAFE`. -/
structure Env : Type where
  statusResp : Option (Nat × Option SessionInfo)
  currentStatus : Option Nat
  drugsStatus : Option Nat
  drugsList : List String
  startStatus : Option Nat
  sendStatus : Option Nat
  completeStatus : Option Nat
  failAt : Option Nat
  browserOk : Bool
deriving DecidableEq, Repr

/-- Timing fields of `WindowsAutomationClient.__init__` (ms):
`paste_delay = 1.0`, `field_focus_delay = 0.5`, `f4_delay = 2.0`,
`browser_delay = 3.0`. -/
structure Client : Type where
  paste_delay : Nat
  field_focus_delay : Nat
  f4_delay : Nat
  browser_delay : Nat
deriving DecidableEq, Repr

/-- The defaults hardcoded in `__init__`. -/
def defaultClient : Client :=
  { paste_delay := 1000, field_focus_delay := 500, f4_delay := 2000,
    browser_delay := 3000 }

/-- `config.py` `TIMING` dict (delays in ms, `countdown_delay` the plain
configured count 5). -/
structure Timing : Type where
  paste_delay : Nat
  field_focus_delay : Nat
  f4_delay : Nat
  browser_delay : Nat
  countdown_delay : Nat
deriving DecidableEq, Repr

/-- `TIMING` constant of `config.py`. -/
def TIMING : Timing :=
  { paste_delay := 1000, field_focus_delay := 500, f4_delay := 2000,
    browser_delay := 3000, countdown_delay := 5 }

/-- `config.py` `PRESCRIPTION_SOFTWARE` dict. -/
structure PrescriptionSoftware : Type where
  name : String
  field_separator : String
  submit_key : String
  window_title : String
deriving DecidableEq, Repr

/-- `PRESCRIPTION_SOFTWARE` constant of `config.py`. -/
def PRESCRIPTION_SOFTWARE : PrescriptionSoftware :=
  { name := "Default", field_separator := "enter", submit_key := "f4",
    window_title := "" }

/-- `config.py` `NETWORK` dict. -/
structure Network : Type where
  connection_timeout : Nat
  retry_attempts : Nat
  retry_delay : Nat
deriving DecidableEq, Repr

/-- `NETWORK` constant of `config.py`: a declared retry policy. -/
def NETWORK : Network :=
  { connection_timeout := 5, retry_attempts := 3, retry_delay := 1 }

/-- Applying a `Timing` to a client, per the documented usage in `config.py`
(`client.paste_delay = TIMING["paste_delay"]`, etc.).  The client object has
no countdown field at all, so `countdown_delay` has nothing to be assigned
to. -/
def applyTiming (t : Timing) : Client :=
  { paste_delay := t.paste_delay, field_focus_delay := t.field_focus_delay,
    f4_delay := t.f4_delay, browser_delay := t.browser_delay }

/-- Whether a pyautogui call raises `FailSafeException`, given that `c` calls
completed so far: it does iff the gesture threshold has been reached. -/
def pyActive (failAt : Option Nat) (c : Nat) : Bool :=
  match failAt with
  | none => false
  | some t => decide (t ≤ c)

/-- Result of the drug-entry loop of `paste_drugs_to_application`:
the events it emitted, how many entries completed their
typewrite-and-press pair, the pyautogui call counter afterwards, and whether
`FailSafeException` was raised. -/
structure EnterResult : Type where
  trace : List Ev
  entered : Nat
  ctr : Nat
  aborted : Bool
deriving DecidableEq, Repr

/-- The `for i, drug in enumerate(drugs, 1)` loop body of
`paste_drugs_to_application`: `time.sleep(field_focus_delay)`;
`pyautogui.typewrite(drug)`; `pyautogui.press('enter')`;
`time.sleep(paste_delay)`.  The sleep always happens (it cannot raise); each
pyautogui call raises `FailSafeException` when the gesture is active, ending
the loop there. -/
def enterLoop (ffd pd : Nat) (failAt : Option Nat) :
    List String → Nat → EnterResult
  | [], c => { trace := [], entered := 0, ctr := c, aborted := false }
  | d :: ds, c =>
    if pyActive failAt c then
      { trace := [Ev.sleep ffd], entered := 0, ctr := c, aborted := true }
    else if pyActive failAt (c + 1) then
      { trace := [Ev.sleep ffd, Ev.typeText d], entered := 0, ctr := c + 1,
        aborted := true }
    else
      let r := enterLoop ffd pd failAt ds (c + 2)
      { trace := Ev.sleep ffd :: Ev.typeText d :: Ev.pressKey "enter" ::
          Ev.sleep pd :: r.trace,
        entered := r.entered + 1, ctr := r.ctr, aborted := r.aborted }

/-- The `for i in range(5, 0, -1): print(f"   {i}..."); time.sleep(1)`
countdown: five ticks of one second each, counting 5 down to 1.  Plain
`time.sleep`, so nothing here consults the fail-safe gesture. -/
def countdownBlock : List Ev :=
  [Ev.countdownTick 5, Ev.sleep 1000, Ev.countdownTick 4, Ev.sleep 1000,
   Ev.countdownTick 3, Ev.sleep 1000, Ev.countdownTick 2, Ev.sleep 1000,
   Ev.countdownTick 1, Ev.sleep 1000]

/-- Outcome of `paste_drugs_to_application`: `ok` maps to `return True`,
`noDrugs` to the early `return False` on an empty list, and `abortedFailsafe`
to the `except pyautogui.FailSafeException` handler (which also returns
`False`, after printing its distinct stopped-by-failsafe message). -/
inductive PasteOutcome : Type
  | ok
  | noDrugs
  | abortedFailsafe (entered : Nat)
deriving DecidableEq, Repr

/-- Result of `paste_drugs_to_application`: its events, its outcome, and the
pyautogui call counter afterwards. -/
structure PasteResult : Type where
  trace : List Ev
  outcome : PasteOutcome
  ctr : Nat
deriving DecidableEq, Repr

/-- `paste_drugs_to_application(drugs)`: empty list returns `False` at once;
otherwise the banner, the hardcoded 5-second countdown, then the entry
loop. -/
def paste_drugs_to_application (cfg : Client) (failAt : Option Nat)
    (drugs : List String) : PasteResult :=
  match drugs with
  | [] => { trace := [Ev.report "No drugs to paste"],
            outcome := PasteOutcome.noDrugs, ctr := 0 }
  | d :: ds =>
    let r := enterLoop cfg.field_focus_delay cfg.paste_delay failAt
      (d :: ds) 0
    { trace := Ev.report "Starting drug entry automation" ::
        countdownBlock ++ r.trace,
      outcome := if r.aborted then PasteOutcome.abortedFailsafe r.entered
                 else PasteOutcome.ok,
      ctr := r.ctr }

/-- `test_connection()`: one `requests.get(f"{base_url}/status", timeout=5)`.
A raised exception or a non-200 status prints an error and returns `False`;
a 200 response prints the session summary (or the no-active-session notice)
and returns `True`. -/
def test_connection (env : Env) : List Ev × Bool :=
  let head := [Ev.report "Testing connection to Android server",
               Ev.httpGet "/status" 5]
  match env.statusResp with
  | none => (head ++ [Ev.report "Cannot connect to Android server"], false)
  | some (code, sess) =>
    if code = 200 then
      match sess with
      | some _ => (head ++ [Ev.report "Active session"], true)
      | none => (head ++ [Ev.report "No active prescription session"], true)
    else
      (head ++ [Ev.report "Server responded with error status"], false)

/-- `get_prescription_drugs()`: one
`requests.get(f"{base_url}/prescription/drugs", timeout=10)`.  A 200 response
returns `data.get('drugs', [])`; any other status or a raised exception
returns `None`. -/
def get_prescription_drugs (env : Env) : List Ev × Option (List String) :=
  let head := [Ev.report "Fetching prescription drugs",
               Ev.httpGet "/prescription/drugs" 10]
  match env.drugsStatus with
  | some c =>
    if c = 200 then (head, some env.drugsList)
    else (head ++ [Ev.report "Failed to get drugs"], none)
  | none => (head ++ [Ev.report "Error fetching drugs"], none)

/-- `send_prescription_to_health_department()`: `time.sleep(f4_delay)` then
`pyautogui.press('f4')`.  The press raises `FailSafeException` when the
gesture is active (second component `false`); otherwise it returns `True`. -/
def send_prescription_to_health_department (cfg : Client)
    (failAt : Option Nat) (c : Nat) : List Ev × Bool × Nat :=
  let head := [Ev.report "Sending prescription to health department",
               Ev.sleep cfg.f4_delay]
  if pyActive failAt c then
    (head ++ [Ev.report "Automation stopped by failsafe"], false, c)
  else
    (head ++ [Ev.pressKey "f4"], true, c + 1)

/-- `open_browser_for_esignature(esign_url)`: `time.sleep(browser_delay)`
then `webbrowser.open` on the given URL, or on `about:blank` when none was
given; an exception while opening returns `False`. -/
def open_browser_for_esignature (cfg : Client) (browserOk : Bool)
    (esign_url : Option String) : List Ev × Bool :=
  let head := [Ev.report "Opening browser for e-signature",
               Ev.sleep cfg.browser_delay]
  if browserOk then
    (head ++ [Ev.openBrowser (esign_url.getD "about:blank")], true)
  else
    (head ++ [Ev.report "Error opening browser"], false)

/-- `complete_prescription_session()`: one
`requests.post(f"{base_url}/prescription/complete", timeout=10)`; only a 200
response returns `True`, anything else prints a warning and returns
`False`. -/
def complete_prescription_session (env : Env) : List Ev × Bool :=
  let head := [Ev.report "Completing prescription session",
               Ev.httpPost "/prescription/complete" 10]
  match env.completeStatus with
  | some c =>
    if c = 200 then (head, true)
    else (head ++ [Ev.report "Warning: could not complete session"], false)
  | none => (head ++ [Ev.report "Warning: error completing session"], false)

/-- Terminal description of a run of `run_complete_workflow`, recording which
return branch of the source function produced the final `bool`.  `failed*`
are the early `return False` branches; `aborted` is the `return False` after
`paste_drugs_to_application` hit the `FailSafeException` handler, with the
number of drug entries completed before the abort; `completed` is the final
`return True`, carrying whether the browser step and the completion step had
printed a warning rather than succeeding. -/
inductive Terminal : Type
  | failedConnect
  | failedNoDrugs
  | failedEnter
  | failedSend
  | aborted (entered : Nat)
  | completed (browserWarn completeWarn : Bool)
deriving DecidableEq, Repr

/-- Result of `run_complete_workflow`: trace, terminal branch, and the
returned `bool`. -/
structure RunResult : Type where
  trace : List Ev
  terminal : Terminal
  result : Bool
deriving DecidableEq, Repr

/-- `run_complete_workflow(esign_url)`: test connection, fetch drugs
(`if not drugs: return False` — covering both a failed fetch and an empty
list), paste the drugs, press F4, open the browser (failure only warns), then
complete the session with its result ignored, and `return True`. -/
def run_complete_workflow (cfg : Client) (env : Env)
    (esign_url : Option String) : RunResult :=
  let s1 := test_connection env
  if ¬s1.2 then
    { trace := s1.1 ++ [Ev.report "Workflow failed: cannot connect"],
      terminal := Terminal.failedConnect, result := false }
  else
    let s2 := get_prescription_drugs env
    match s2.2 with
    | none =>
      { trace := s1.1 ++ s2.1 ++ [Ev.report "Workflow failed: no drugs"],
        terminal := Terminal.failedNoDrugs, result := false }
    | some [] =>
      { trace := s1.1 ++ s2.1 ++ [Ev.report "Workflow failed: no drugs"],
        terminal := Terminal.failedNoDrugs, result := false }
    | some (d :: ds) =>
      let p := paste_drugs_to_application cfg env.failAt (d :: ds)
      match p.outcome with
      | PasteOutcome.abortedFailsafe k =>
        { trace := s1.1 ++ s2.1 ++ p.trace ++
            [Ev.report "Workflow failed: could not enter drugs"],
          terminal := Terminal.aborted k, result := false }
      | PasteOutcome.noDrugs =>
        { trace := s1.1 ++ s2.1 ++ p.trace ++
            [Ev.report "Workflow failed: could not enter drugs"],
          terminal := Terminal.failedEnter, result := false }
      | PasteOutcome.ok =>
        let s4 := send_prescription_to_health_department cfg env.failAt p.ctr
        if ¬s4.2.1 then
          { trace := s1.1 ++ s2.1 ++ p.trace ++ s4.1 ++
              [Ev.report "Workflow failed: could not send prescription"],
            terminal := Terminal.failedSend, result := false }
        else
          let s5 := open_browser_for_esignature cfg env.browserOk esign_url
          let s6 := complete_prescription_session env
          { trace := s1.1 ++ s2.1 ++ p.trace ++ s4.1 ++ s5.1 ++ s6.1 ++
              [Ev.report "Workflow completed successfully"],
            terminal := Terminal.completed (¬s5.2) (¬s6.2), result := true }

/-- `api_test.py` `test_android_api`: exercises each endpoint in turn, each
with `timeout=5`, catching exceptions per test and always continuing to the
final completed banner.  `startTest` models the interactive y/N answer for
the optional start-session test.  Relevant here: the send test POSTs
`/prescription/send` once and, on a 400 response, prints the
normal-if-no-drugs informational note; the script imports no automation
library and injects no input events. -/
def test_android_api (env : Env) (startTest : Bool) : List Ev :=
  let t1 := [Ev.report "Testing server status", Ev.httpGet "/status" 5]
  let t2 := [Ev.report "Testing current prescription",
             Ev.httpGet "/prescription/current" 5] ++
    (match env.currentStatus with
     | some c =>
       if c = 200 then [Ev.report "Current prescription endpoint working"]
       else [Ev.report "Current prescription failed"] ++
         (if c = 404 then
           [Ev.report "Normal if no prescription session is active"]
         else [])
     | none => [Ev.report "Current prescription error"])
  let t3 := [Ev.report "Testing pending drugs",
             Ev.httpGet "/prescription/drugs" 5]
  let t4 := if startTest then
      [Ev.report "Testing start session", Ev.httpPost "/prescription/start" 5]
    else
      [Ev.report "Skipping start session test"]
  let t5 := [Ev.report "Testing send prescription",
             Ev.httpPost "/prescription/send" 5] ++
    (match env.sendStatus with
     | some c =>
       if c = 200 then [Ev.report "Send prescription endpoint working"]
       else [Ev.report "Send prescription failed"] ++
         (if c = 400 then
           [Ev.report "Normal if no drugs are in the prescription"]
         else [])
     | none => [Ev.report "Send prescription error"])
  t1 ++ t2 ++ t3 ++ t4 ++ t5 ++ [Ev.report "API testing completed"]

/-- The start-session step of `workflow_test.py` (step 2): one
`requests.post(f"{base_url}/prescription/start", json=payload, timeout=5)`;
200 succeeds, anything else fails the test. -/
def startSessionCall (env : Env) : List Ev × Bool :=
  ([Ev.report "Starting new prescription session",
    Ev.httpPost "/prescription/start" 5],
   env.startStatus = some 200)

/-- The send test of `api_test.py` in isolation (test 5): one
`requests.post(f"{base_url}/prescription/send", timeout=5)`; a 400 response
is reported as the expected no-drugs-queued condition. -/
def requestSendCall (env : Env) : List Ev × Bool :=
  ([Ev.report "Testing send prescription",
    Ev.httpPost "/prescription/send" 5],
   env.sendStatus = some 200)

/-- Provider-side session state.  Modelled from the spec: the provider (the
Android HTTP server of this repository) is not under `src/`; §3 gives the
session record and §6 fixes the endpoint contract. -/
structure World : Type where
  session : Option SessionInfo
deriving DecidableEq, Repr

/-- Modelled from the spec: `GET /status` is a query — it returns a snapshot
of the current session and does not modify the provider state (§6 row 1,
§4.1 `getStatus`). -/
def getStatusW (w : World) : Option SessionInfo × World :=
  (w.session, w)

/-- Modelled from the spec: `POST /prescription/complete` finalizes and
clears the active session on the provider (§6 last row) — in contrast to
`GET /status`, it does change the provider state. -/
def completeSessionW (_w : World) : World :=
  { session := none }

/-- Count of injected input events (typeText or pressKey) in a trace. -/
def injCount (t : List Ev) : Nat :=
  t.countP (fun e =>
    match e with
    | Ev.typeText _ => true
    | Ev.pressKey _ => true
    | _ => false)

/-- Count of typeText events in a trace. -/
def typeCount (t : List Ev) : Nat :=
  t.countP (fun e => match e with | Ev.typeText _ => true | _ => false)

/-- Count of pressKey events in a trace. -/
def pressCount (t : List Ev) : Nat :=
  t.countP (fun e => match e with | Ev.pressKey _ => true | _ => false)

/-- Count of HTTP round trips (GET or POST) in a trace. -/
def httpCount (t : List Ev) : Nat :=
  t.countP (fun e =>
    match e with
    | Ev.httpGet _ _ => true
    | Ev.httpPost _ _ => true
    | _ => false)

/-- The countdown ticks of a trace, in order. -/
def countdownTicks (t : List Ev) : List Nat :=
  t.filterMap (fun e => match e with | Ev.countdownTick n => some n | _ => none)

/-- The texts injected by typeText events of a trace, in order. -/
def typedTexts (t : List Ev) : List String :=
  t.filterMap (fun e => match e with | Ev.typeText s => some s | _ => none)

/-- Whether a trace contains a POST to the given path. -/
def hasPost (path : String) (t : List Ev) : Bool :=
  t.any (fun e => match e with | Ev.httpPost p _ => p = path | _ => false)

/-- Count of POST round trips in a trace. -/
def postCount (t : List Ev) : Nat :=
  t.countP (fun e => match e with | Ev.httpPost _ _ => true | _ => false)

/-- Whether every HTTP round trip of a trace carries a timeout of at most
`b` seconds. -/
def timeoutsBounded (b : Nat) (t : List Ev) : Bool :=
  t.all (fun e =>
    match e with
    | Ev.httpGet _ s => s ≤ b
    | Ev.httpPost _ s => s ≤ b
    | _ => true)

/-- The four events the entry loop emits for one drug when nothing aborts. -/
def stepEv (ffd pd : Nat) (d : String) : List Ev :=
  [Ev.sleep ffd, Ev.typeText d, Ev.pressKey "enter", Ev.sleep pd]

/-- A concrete active session for concrete runs. -/
def happySession : SessionInfo :=
  { sessionId := "RX-1", patientInfo := "Test Patient", drugCount := 2 }

/-- A fully successful environment, using the drug list of the spec's own
worked example. -/
def happyEnv : Env :=
  { statusResp := some (200, some happySession), currentStatus := some 200,
    drugsStatus := some 200,
    drugsList := ["Amoxicillin 500mg", "Ibuprofen 200mg"],
    startStatus := some 200, sendStatus := some 200,
    completeStatus := some 200, failAt := none, browserOk := true }

/-- Environment whose `/status` answer carries no active session while the
drug endpoint still returns a non-empty list. -/
def envNoSession : Env :=
  { happyEnv with statusResp := some (200, none),
                  drugsList := ["Aspirin 100mg"] }

/-- Environment in which the fail-safe gesture becomes active once two
pyautogui calls (one full drug entry) have completed. -/
def envAbort : Env :=
  { happyEnv with failAt := some 2 }

/-- Environment whose drug endpoint returns an empty list. -/
def envEmptyDrugs : Env :=
  { happyEnv with drugsList := [] }

/-- Environment in which the completion POST answers 500. -/
def envCompleteFail : Env :=
  { happyEnv with completeStatus := some 500 }

/-- Environment in which the send POST answers 400 (no drugs queued). -/
def envSend400 : Env :=
  { happyEnv with sendStatus := some 400 }

/-- A timing configuration whose `countdown_delay` differs from 5, to
exercise that the countdown ignores it. -/
def timingOdd : Timing :=
  { paste_delay := 700, field_focus_delay := 300, f4_delay := 900,
    browser_delay := 1100, countdown_delay := 99 }

lemma pyActive_true {t c : Nat} (h : t ≤ c) : pyActive (some t) c = true := by
  simp [pyActive, h]

lemma pyActive_false {t c : Nat} (h : ¬ t ≤ c) :
    pyActive (some t) c = false := by
  simp [pyActive, h]

lemma enterLoop_none (ffd pd : Nat) :
    ∀ (ds : List String) (c : Nat),
    enterLoop ffd pd none ds c =
      { trace := ds.flatMap (stepEv ffd pd), entered := ds.length,
        ctr := c + 2 * ds.length, aborted := false } := by
  intro ds
  induction ds with
  | nil => intro c; simp [enterLoop]
  | cons d ds ih =>
    intro c
    simp [enterLoop, pyActive, ih (c + 2), stepEv]
    omega

lemma enterLoop_abort (ffd pd : Nat) :
    ∀ (ds : List String) (j k : Nat), k < ds.length →
    enterLoop ffd pd (some (2 * (j + k))) ds (2 * j) =
      { trace := (ds.take k).flatMap (stepEv ffd pd) ++ [Ev.sleep ffd],
        entered := k, ctr := 2 * (j + k), aborted := true } := by
  intro ds
  induction ds with
  | nil => intro j k hk; simp at hk
  | cons d ds ih =>
    intro j k hk
    match k with
    | 0 =>
      have h0 : pyActive (some (2 * (j + 0))) (2 * j) = true :=
        pyActive_true (by omega)
      simp only [enterLoop, h0]
      simp
    | k' + 1 =>
      have h1 : pyActive (some (2 * (j + (k' + 1)))) (2 * j) = false :=
        pyActive_false (by omega)
      have h2 : pyActive (some (2 * (j + (k' + 1)))) (2 * j + 1) = false :=
        pyActive_false (by omega)
      have harg : 2 * (j + (k' + 1)) = 2 * ((j + 1) + k') := by omega
      have hc : 2 * j + 2 = 2 * (j + 1) := by omega
      have hrec := ih (j + 1) k' (by simpa using hk)
      simp only [enterLoop, h1, h2]
      simp only [harg, hc, hrec]
      simp [stepEv]

lemma countP_flatMap_stepEv (p : Ev → Bool) (ffd pd : Nat)
    (hcount : ∀ d : String, (stepEv ffd pd d).countP p = 1) :
    ∀ l : List String, (l.flatMap (stepEv ffd pd)).countP p = l.length := by
  intro l
  induction l with
  | nil => simp
  | cons d ds ih =>
    simp [List.flatMap_cons, List.countP_append, ih, hcount]
    omega

lemma typeCount_flatMap (ffd pd : Nat) (l : List String) :
    typeCount (l.flatMap (stepEv ffd pd)) = l.length := by
  apply countP_flatMap_stepEv
  intro d
  simp [stepEv, List.countP_cons]

lemma pressCount_flatMap (ffd pd : Nat) (l : List String) :
    pressCount (l.flatMap (stepEv ffd pd)) = l.length := by
  apply countP_flatMap_stepEv
  intro d
  simp [stepEv, List.countP_cons]

lemma typedTexts_flatMap (ffd pd : Nat) :
    ∀ l : List String, typedTexts (l.flatMap (stepEv ffd pd)) = l := by
  intro l
  induction l with
  | nil => simp [typedTexts]
  | cons d ds ih =>
    simp only [List.flatMap_cons, typedTexts, List.filterMap_append] at *
    simp [stepEv, List.filterMap_cons, ih]

lemma countdownTicks_flatMap (ffd pd : Nat) :
    ∀ l : List String, countdownTicks (l.flatMap (stepEv ffd pd)) = [] := by
  intro l
  induction l with
  | nil => simp [countdownTicks]
  | cons d ds ih =>
    simp only [List.flatMap_cons, countdownTicks, List.filterMap_append] at *
    simp [stepEv, List.filterMap_cons, ih]

/-- C1.  For every non-empty fetched drug sequence and an undisturbed run of
`paste_drugs_to_application`, the phase emits the banner, the countdown, and
then for each drug — in fetched order — exactly the four steps: wait
`field_focus_delay`, typeText of the drug, pressKey of the configured field
separator, wait `paste_delay`; one typeText/pressKey pair per entry, no
reordering or batching, and the phase succeeds. -/
theorem C1_entering_step_sequence (cfg : Client) (drugs : List String)
    (h : drugs ≠ []) :
    paste_drugs_to_application cfg none drugs =
      { trace := Ev.report "Starting drug entry automation" ::
          countdownBlock ++ drugs.flatMap (fun d =>
            [Ev.sleep cfg.field_focus_delay, Ev.typeText d,
             Ev.pressKey PRESCRIPTION_SOFTWARE.field_separator,
             Ev.sleep cfg.paste_delay]),
        outcome := PasteOutcome.ok, ctr := 2 * drugs.length } := by
  match drugs with
  | [] => exact absurd rfl h
  | d :: ds =>
    have he := enterLoop_none cfg.field_focus_delay cfg.paste_delay (d :: ds) 0
    have hfun : (fun d => [Ev.sleep cfg.field_focus_delay, Ev.typeText d,
        Ev.pressKey PRESCRIPTION_SOFTWARE.field_separator,
        Ev.sleep cfg.paste_delay]) =
        stepEv cfg.field_focus_delay cfg.paste_delay := rfl
    rw [hfun]
    simp only [paste_drugs_to_application, he]
    simp

/-- Witness for C1 at the spec's own example list. -/
theorem C1_witness :
    (["Amoxicillin 500mg", "Ibuprofen 200mg"] : List String) ≠ [] ∧
    paste_drugs_to_application defaultClient none
        ["Amoxicillin 500mg", "Ibuprofen 200mg"] =
      { trace := Ev.report "Starting drug entry automation" ::
          countdownBlock ++
          (["Amoxicillin 500mg", "Ibuprofen 200mg"] : List String).flatMap
            (fun d =>
              [Ev.sleep defaultClient.field_focus_delay, Ev.typeText d,
               Ev.pressKey PRESCRIPTION_SOFTWARE.field_separator,
               Ev.sleep defaultClient.paste_delay]),
        outcome := PasteOutcome.ok, ctr := 4 } :=
  ⟨by decide,
   C1_entering_step_sequence defaultClient
     ["Amoxicillin 500mg", "Ibuprofen 200mg"] (by decide)⟩

lemma typeCount_append (a b : List Ev) :
    typeCount (a ++ b) = typeCount a + typeCount b :=
  List.countP_append _ _ _

lemma pressCount_append (a b : List Ev) :
    pressCount (a ++ b) = pressCount a + pressCount b :=
  List.countP_append _ _ _

lemma typedTexts_append (a b : List Ev) :
    typedTexts (a ++ b) = typedTexts a ++ typedTexts b :=
  List.filterMap_append _ _ _

/-- C2.  If the fail-safe gesture becomes active exactly after `2 * k`
pyautogui calls — that is, after drug `k` of `n` was fully entered, with
`1 ≤ k < n` — the run ends in the aborted branch reporting `k` completed
entries, returns `False`, has injected exactly `k` typeText and `k` pressKey
events (the first `k` drugs in fetched order), and none of the later phases
(submit, browser, completion) is ever entered: their banners never occur, the
submit key is never pressed and no completion POST is sent. -/
theorem C2_abort_after_k (cfg : Client) (env : Env) (esign : Option String)
    (sess : Option SessionInfo) (k : Nat)
    (hstatus : env.statusResp = some (200, sess))
    (hdrugs : env.drugsStatus = some 200)
    (hfail : env.failAt = some (2 * k))
    (_hk1 : 1 ≤ k) (hk2 : k < env.drugsList.length) :
    (run_complete_workflow cfg env esign).terminal = Terminal.aborted k ∧
    (run_complete_workflow cfg env esign).result = false ∧
    typeCount (run_complete_workflow cfg env esign).trace = k ∧
    pressCount (run_complete_workflow cfg env esign).trace = k ∧
    typedTexts (run_complete_workflow cfg env esign).trace =
      env.drugsList.take k ∧
    Ev.report "Sending prescription to health department" ∉
      (run_complete_workflow cfg env esign).trace ∧
    Ev.report "Opening browser for e-signature" ∉
      (run_complete_workflow cfg env esign).trace ∧
    Ev.report "Completing prescription session" ∉
      (run_complete_workflow cfg env esign).trace ∧
    Ev.pressKey "f4" ∉ (run_complete_workflow cfg env esign).trace ∧
    hasPost "/prescription/complete"
      (run_complete_workflow cfg env esign).trace = false := by
  obtain ⟨d, ds, hshape⟩ : ∃ d ds, env.drugsList = d :: ds := by
    cases hl : env.drugsList with
    | nil => rw [hl] at hk2; simp at hk2
    | cons d ds => exact ⟨d, ds, rfl⟩
  have hk2' : k < (d :: ds).length := by rw [hshape] at hk2; exact hk2
  have hent := enterLoop_abort cfg.field_focus_delay cfg.paste_delay
    (d :: ds) 0 k hk2'
  simp only [Nat.zero_add, Nat.mul_zero] at hent
  have hlen : ((d :: ds).take k).length = k := by
    rw [List.length_take]
    omega
  rcases sess with _ | s <;>
  · simp [run_complete_workflow, test_connection, hstatus,
      get_prescription_drugs, hdrugs, hshape, hfail,
      paste_drugs_to_application, hent,
      countdownBlock, typeCount, pressCount, typedTexts, hasPost,
      List.mem_flatMap, stepEv]
    refine ⟨?_, ?_, ?_⟩
    · simpa [typeCount, hlen] using
        typeCount_flatMap cfg.field_focus_delay cfg.paste_delay
          (List.take k (d :: ds))
    · simpa [pressCount, hlen] using
        pressCount_flatMap cfg.field_focus_delay cfg.paste_delay
          (List.take k (d :: ds))
    · simpa [typedTexts] using
        typedTexts_flatMap cfg.field_focus_delay cfg.paste_delay
          (List.take k (d :: ds))

/-- Witness for C2: the gesture activates after one full entry (two pyautogui
calls) of a two-drug list. -/
theorem C2_witness :
    envAbort.statusResp = some (200, some happySession) ∧
    envAbort.drugsStatus = some 200 ∧
    envAbort.failAt = some (2 * 1) ∧ 1 ≤ 1 ∧
    1 < envAbort.drugsList.length ∧
    (run_complete_workflow defaultClient envAbort none).terminal =
      Terminal.aborted 1 ∧
    typeCount (run_complete_workflow defaultClient envAbort none).trace = 1 :=
  ⟨rfl, rfl, rfl, by decide, by decide,
   (C2_abort_after_k defaultClient envAbort none (some happySession) 1
      rfl rfl rfl (by decide) (by decide)).1,
   (C2_abort_after_k defaultClient envAbort none (some happySession) 1
      rfl rfl rfl (by decide) (by decide)).2.2.1⟩

/-- C5.  When the connection test succeeds but the fetched drug sequence is
empty, the run fails in the no-drugs branch, returns `False`, and its trace
contains no InputInjector event at all: no typeText and no pressKey. -/
theorem C5_empty_drugs_failed (cfg : Client) (env : Env)
    (esign : Option String) (sess : Option SessionInfo)
    (hstatus : env.statusResp = some (200, sess))
    (hdrugs : env.drugsStatus = some 200)
    (hempty : env.drugsList = []) :
    (run_complete_workflow cfg env esign).terminal = Terminal.failedNoDrugs ∧
    (run_complete_workflow cfg env esign).result = false ∧
    typeCount (run_complete_workflow cfg env esign).trace = 0 ∧
    pressCount (run_complete_workflow cfg env esign).trace = 0 := by
  rcases sess with _ | s <;>
  · simp [run_complete_workflow, test_connection, hstatus,
      get_prescription_drugs, hdrugs, hempty, typeCount, pressCount]

/-- Witness for C5. -/
theorem C5_witness :
    envEmptyDrugs.statusResp = some (200, some happySession) ∧
    envEmptyDrugs.drugsStatus = some 200 ∧ envEmptyDrugs.drugsList = [] ∧
    (run_complete_workflow defaultClient envEmptyDrugs none).terminal =
      Terminal.failedNoDrugs ∧
    typeCount (run_complete_workflow defaultClient envEmptyDrugs none).trace
      = 0 :=
  ⟨rfl, rfl, rfl,
   (C5_empty_drugs_failed defaultClient envEmptyDrugs none
      (some happySession) rfl rfl rfl).1,
   (C5_empty_drugs_failed defaultClient envEmptyDrugs none
      (some happySession) rfl rfl rfl).2.2.1⟩

/-- C6.  When the workflow reaches the completion step (connection, fetch,
entry and submission all succeeded) and the completion POST does not answer
200, the run still ends in the completed terminal with the completion
warning attached (never a failed terminal), and the overall result is still
`True`. -/
theorem C6_completion_warning (cfg : Client) (env : Env)
    (esign : Option String) (sess : Option SessionInfo)
    (hstatus : env.statusResp = some (200, sess))
    (hdrugs : env.drugsStatus = some 200)
    (hne : env.drugsList ≠ [])
    (hnofail : env.failAt = none)
    (hcomp : env.completeStatus ≠ some 200) :
    (run_complete_workflow cfg env esign).terminal =
      Terminal.completed (!env.browserOk) true ∧
    (run_complete_workflow cfg env esign).result = true := by
  obtain ⟨d, ds, hshape⟩ : ∃ d ds, env.drugsList = d :: ds := by
    cases hl : env.drugsList with
    | nil => exact absurd hl hne
    | cons d ds => exact ⟨d, ds, rfl⟩
  have hent := enterLoop_none cfg.field_focus_delay cfg.paste_delay
    (d :: ds) 0
  rcases hcs : env.completeStatus with _ | c
  · rcases hb : env.browserOk <;> rcases sess with _ | s <;>
    · simp [run_complete_workflow, test_connection, hstatus,
        get_prescription_drugs, hdrugs, hshape, hnofail,
        paste_drugs_to_application, hent, pyActive,
        send_prescription_to_health_department,
        open_browser_for_esignature, hb,
        complete_prescription_session, hcs]
  · have hc : c ≠ 200 := fun h => hcomp (by rw [hcs, h])
    rcases hb : env.browserOk <;> rcases sess with _ | s <;>
    · simp [run_complete_workflow, test_connection, hstatus,
        get_prescription_drugs, hdrugs, hshape, hnofail,
        paste_drugs_to_application, hent, pyActive,
        send_prescription_to_health_department,
        open_browser_for_esignature, hb,
        complete_prescription_session, hcs, hc]

/-- Witness for C6: completion answers 500. -/
theorem C6_witness :
    envCompleteFail.statusResp = some (200, some happySession) ∧
    envCompleteFail.drugsList ≠ [] ∧ envCompleteFail.failAt = none ∧
    envCompleteFail.completeStatus ≠ some 200 ∧
    (run_complete_workflow defaultClient envCompleteFail none).terminal =
      Terminal.completed (!envCompleteFail.browserOk) true ∧
    (run_complete_workflow defaultClient envCompleteFail none).result =
      true :=
  ⟨rfl, by decide, rfl, by decide,
   (C6_completion_warning defaultClient envCompleteFail none
      (some happySession) rfl rfl (by decide) rfl (by decide)).1,
   (C6_completion_warning defaultClient envCompleteFail none
      (some happySession) rfl rfl (by decide) rfl (by decide)).2⟩

/-- C3.  Evaluation at the failing input: with `/status` answering 200 with
no session and the drug endpoint answering a non-empty list,
`run_complete_workflow` reaches the drug-entry phase (its banner and a
typeText occur) without any `POST /prescription/start` ever being sent — the
orchestrator proceeds without obtaining a session, contradicting the claim
(and the behaviour of `workflow_test.py`, which starts a session when the
status reports none). -/
theorem C3_proceeds_without_session :
    envNoSession.statusResp = some (200, none) ∧
    Ev.report "Starting drug entry automation" ∈
      (run_complete_workflow defaultClient envNoSession none).trace ∧
    Ev.typeText "Aspirin 100mg" ∈
      (run_complete_workflow defaultClient envNoSession none).trace ∧
    hasPost "/prescription/start"
      (run_complete_workflow defaultClient envNoSession none).trace =
      false := by
  decide

/-- C4.  Whenever the send endpoint answers 400 (no drugs queued), the API
test run reports the expected no-drugs-queued condition, keeps running to its
completed banner (a reportable condition, not a crash), and — as in every
run of the script, which performs no input injection at all — neither a
typeText nor a pressKey event ever occurs, so no submit key is pressed. -/
theorem C4_send_400_reported (env : Env) (startTest : Bool)
    (h : env.sendStatus = some 400) :
    Ev.report "Normal if no drugs are in the prescription" ∈
      test_android_api env startTest ∧
    typeCount (test_android_api env startTest) = 0 ∧
    pressCount (test_android_api env startTest) = 0 ∧
    Ev.report "API testing completed" ∈ test_android_api env startTest := by
  rcases hcs : env.currentStatus with _ | c <;> rcases startTest <;>
  · simp only [test_android_api, hcs, h]
    split_ifs <;> simp_all [typeCount, pressCount]

/-- Witness for C4. -/
theorem C4_witness :
    envSend400.sendStatus = some 400 ∧
    Ev.report "Normal if no drugs are in the prescription" ∈
      test_android_api envSend400 false ∧
    typeCount (test_android_api envSend400 false) = 0 :=
  ⟨rfl, (C4_send_400_reported envSend400 false rfl).1,
   (C4_send_400_reported envSend400 false rfl).2.1⟩

lemma countdownTicks_enterLoop (ffd pd : Nat) (f : Option Nat) :
    ∀ (ds : List String) (c : Nat),
    countdownTicks (enterLoop ffd pd f ds c).trace = [] := by
  intro ds
  induction ds with
  | nil => intro c; simp [enterLoop, countdownTicks]
  | cons d ds ih =>
    intro c
    by_cases h1 : pyActive f c = true
    · simp [enterLoop, h1, countdownTicks]
    · by_cases h2 : pyActive f (c + 1) = true
      · simp [enterLoop, h1, h2, countdownTicks]
      · have := ih (c + 2)
        simp only [countdownTicks] at this
        simp [enterLoop, h1, h2, countdownTicks, this]

lemma countdownTicks_paste (cfg : Client) (failAt : Option Nat) (d : String)
    (ds : List String) :
    countdownTicks
      (paste_drugs_to_application cfg failAt (d :: ds)).trace =
      [5, 4, 3, 2, 1] := by
  have he := countdownTicks_enterLoop cfg.field_focus_delay cfg.paste_delay
    failAt (d :: ds) 0
  simp only [countdownTicks] at he ⊢
  simp [paste_drugs_to_application, List.filterMap_append, countdownBlock,
    he]

/-- C7 counterexample.  With the fail-safe gesture active from the very
start of the run — in particular throughout the pre-step countdown — the
countdown is not interrupted: all five ticks (and their full one-second
sleeps) still occur, no fewer; the abort only happens afterwards, at the
first injection call (zero typeText events, aborted with zero entries).  So
a wait is not interruptible by the fail-safe signal, contrary to the
claim. -/
theorem C7_wait_not_interruptible :
    ¬ ((countdownTicks (paste_drugs_to_application defaultClient (some 0)
          ["Amoxicillin 500mg"]).trace).length < 5) ∧
    countdownTicks (paste_drugs_to_application defaultClient (some 0)
        ["Amoxicillin 500mg"]).trace = [5, 4, 3, 2, 1] ∧
    typeCount (paste_drugs_to_application defaultClient (some 0)
        ["Amoxicillin 500mg"]).trace = 0 ∧
    (paste_drugs_to_application defaultClient (some 0)
        ["Amoxicillin 500mg"]).outcome = PasteOutcome.abortedFailsafe 0 := by
  decide

/-- C7 amended.  Waits and the countdown are plain uninterruptible sleeps:
whatever the fail-safe gesture does and whenever it becomes active, the
countdown of a non-empty entry phase always completes in full (all five
ticks occur); the gesture takes effect only at the next pyautogui injection
call. -/
theorem C7_amended_waits_complete (cfg : Client) (failAt : Option Nat)
    (drugs : List String) (h : drugs ≠ []) :
    countdownTicks (paste_drugs_to_application cfg failAt drugs).trace =
      [5, 4, 3, 2, 1] := by
  match drugs with
  | [] => exact absurd rfl h
  | d :: ds => exact countdownTicks_paste cfg failAt d ds

/-- Witness for the amended C7. -/
theorem C7_amended_witness :
    (["Amoxicillin 500mg"] : List String) ≠ [] ∧
    countdownTicks (paste_drugs_to_application defaultClient (some 0)
        ["Amoxicillin 500mg"]).trace = [5, 4, 3, 2, 1] :=
  ⟨by decide,
   C7_amended_waits_complete defaultClient (some 0) ["Amoxicillin 500mg"]
     (by decide)⟩

/-- C8.  Each client operation — status query, drug fetch, session start,
send request, session completion — performs exactly one HTTP round trip per
invocation, each with a bounded timeout of at most 10 seconds, for every
possible provider behaviour (so no automatic retry ever happens), although
the configuration declares 3 retry attempts with a 1-second delay. -/
theorem C8_single_round_trip (env : Env) :
    httpCount (test_connection env).1 = 1 ∧
    timeoutsBounded 10 (test_connection env).1 = true ∧
    httpCount (get_prescription_drugs env).1 = 1 ∧
    timeoutsBounded 10 (get_prescription_drugs env).1 = true ∧
    httpCount (startSessionCall env).1 = 1 ∧
    timeoutsBounded 10 (startSessionCall env).1 = true ∧
    httpCount (requestSendCall env).1 = 1 ∧
    timeoutsBounded 10 (requestSendCall env).1 = true ∧
    httpCount (complete_prescription_session env).1 = 1 ∧
    timeoutsBounded 10 (complete_prescription_session env).1 = true ∧
    NETWORK.retry_attempts = 3 ∧ NETWORK.retry_delay = 1 := by
  refine ⟨?_, ?_, ?_, ?_, rfl, rfl, rfl, rfl, ?_, ?_, rfl, rfl⟩ <;>
  · first
    | (rcases h : env.statusResp with _ | ⟨c, sess⟩
       · simp [test_connection, h, httpCount, timeoutsBounded]
       · rcases sess with _ | s <;>
         · by_cases hc : c = 200 <;>
             simp [test_connection, h, hc, httpCount, timeoutsBounded])
    | (rcases h : env.drugsStatus with _ | c
       · simp [get_prescription_drugs, h, httpCount, timeoutsBounded]
       · by_cases hc : c = 200 <;>
           simp [get_prescription_drugs, h, hc, httpCount, timeoutsBounded])
    | (rcases h : env.completeStatus with _ | c
       · simp [complete_prescription_session, h, httpCount, timeoutsBounded]
       · by_cases hc : c = 200 <;>
           simp [complete_prescription_session, h, hc, httpCount,
             timeoutsBounded])

/-- C9.  The status query is read-only: on the provider side (modelled per
the fixed HTTP contract) it returns the session snapshot without changing
the provider state, so two consecutive queries with no intervening change
return equal snapshots; and on the client side `test_connection` sends no
state-changing request (no POST at all). -/
theorem C9_getStatus_idempotent (w : World) (env : Env) :
    (getStatusW w).2 = w ∧
    (getStatusW ((getStatusW w).2)).1 = (getStatusW w).1 ∧
    postCount (test_connection env).1 = 0 := by
  refine ⟨rfl, rfl, ?_⟩
  rcases h : env.statusResp with _ | ⟨c, sess⟩
  · simp [test_connection, h, postCount]
  · rcases sess with _ | s <;>
    · by_cases hc : c = 200 <;> simp [test_connection, h, hc, postCount]

/-- C10.  For every timing configuration (whatever its `countdown_delay`
field holds) and every non-empty drug list, the entry phase opens with its
banner followed immediately by the fixed countdown block — five ticks
reporting 5, 4, 3, 2, 1, each followed by a one-second sleep — before
anything else, in particular before the first injection event; the length 5
is hardcoded and independent of the configured `countdown_delay`. -/
theorem C10_countdown_hardcoded (t : Timing) (failAt : Option Nat)
    (drugs : List String) (h : drugs ≠ []) :
    (∃ rest,
      (paste_drugs_to_application (applyTiming t) failAt drugs).trace =
        Ev.report "Starting drug entry automation" ::
          countdownBlock ++ rest) ∧
    countdownTicks
      (paste_drugs_to_application (applyTiming t) failAt drugs).trace =
      [5, 4, 3, 2, 1] ∧
    countdownBlock.count (Ev.sleep 1000) = 5 ∧
    TIMING.countdown_delay = 5 := by
  match drugs with
  | [] => exact absurd rfl h
  | d :: ds =>
    refine ⟨⟨(enterLoop (applyTiming t).field_focus_delay
        (applyTiming t).paste_delay failAt (d :: ds) 0).trace, rfl⟩,
      countdownTicks_paste (applyTiming t) failAt d ds, by decide, rfl⟩

/-- Witness for C10, with a timing whose `countdown_delay` is 99. -/
theorem C10_witness :
    timingOdd.countdown_delay = 99 ∧
    (["Amoxicillin 500mg"] : List String) ≠ [] ∧
    countdownTicks (paste_drugs_to_application (applyTiming timingOdd) none
        ["Amoxicillin 500mg"]).trace = [5, 4, 3, 2, 1] :=
  ⟨rfl, by decide,
   (C10_countdown_hardcoded timingOdd none ["Amoxicillin 500mg"]
      (by decide)).2.1⟩

end DrugBoxOCR
